import Mathlib

/-!
Verification of the checkly-go-sdk client library (`checkly.go`).

The development shallowly embeds the library's response handling:

* JSON values are modelled by an inductive `JValue`.  Go's
  `encoding/json` decoder, when decoding into `map[string]interface{}`,
  represents every JSON number as a `float64`, whether the text was an
  integer literal (`42`) or a floating-point literal (`42.0`).  The model
  keeps the numeric value as an exact `Int` together with a flag that
  records which textual representation was used; the decoder reads the
  exact value regardless of the flag.  This models `float64` faithfully
  whenever the magnitude is at most `2^53` (the range in which `float64`
  represents integers exactly); theorems about numeric round trips carry
  that bound as a hypothesis.  Non-integral JSON numbers play no role in
  any claim and are outside the modelled fragment.
* The HTTP transport (`apiCall`) is abstracted by an `HttpResponse`
  record carrying the status code, the raw body text, and the `JValue`
  that Go's `json.Decode` produces from that text (`none` when the body
  is not valid JSON).  Each resource operation is embedded from the
  point where the completed call returns, which is where all the logic
  the claims are about lives.
* Go type assertions such as `v.(string)` panic when the dynamic type
  does not match; a panic is not an error return, so operation outcomes
  distinguish `ok`, `err` and `panicked`.
-/

namespace Checkly

/-- JSON values as produced by Go's `encoding/json` when decoding into
`map[string]interface{}`.  A number carries its exact integer value and a
flag recording whether the source text was a floating-point literal
(`42.0`, flag `true`) or an integer literal (`42`, flag `false`); the Go
decoder turns both into the same `float64`, so nothing downstream may
depend on the flag. -/
inductive JValue where
  | jnull
  | jbool (b : Bool)
  | jnum (v : Int) (isFloat : Bool)
  | jstr (s : String)
  | jobj (fields : List (String × JValue))

/-- Config of an `EMAIL` alert channel.
Modelled from the spec: the repository's type-definition file is not part
of the analysed sources; the spec (§3, §4.3, glossary) describes a closed
registry of typed configurations selected by the `type` tag, email being
one of the examples. -/
structure AlertChannelEmail where
  address : String
deriving DecidableEq

/-- Config of a `SLACK` alert channel.
Modelled from the spec: see `AlertChannelEmail`. -/
structure AlertChannelSlack where
  webhookURL : String
deriving DecidableEq

/-- Config of a `WEBHOOK` alert channel.
Modelled from the spec: see `AlertChannelEmail`. -/
structure AlertChannelWebhook where
  name : String
  url : String
deriving DecidableEq

/-- A typed alert-channel configuration (one variant per supported type).
Modelled from the spec: "a fixed, closed registry" of alert-channel types
(§4.3); the concrete variants are representative members. -/
inductive ACConfig where
  | email (e : AlertChannelEmail)
  | slack (s : AlertChannelSlack)
  | webhook (w : AlertChannelWebhook)
deriving DecidableEq

/-- The `AlertChannel` record: identifier, `type` discriminator, five
independently optional fields, and one optional typed-config field per
supported type (the Go struct holds one pointer field per config type;
`nil` pointers are `none`).  The struct declaration itself lives in the
repository's type-definition file; its shape here follows the spec (§3)
and the field accesses in `checkly.go`. -/
structure AlertChannel where
  ID : Int
  Type' : String
  SendRecovery : Option Bool
  SendFailure : Option Bool
  SendDegraded : Option Bool
  SSLExpiry : Option Bool
  SSLExpiryThreshold : Option Int
  Email : Option AlertChannelEmail
  Slack : Option AlertChannelSlack
  Webhook : Option AlertChannelWebhook
deriving DecidableEq

/-- `SetConfig`: store a typed configuration in the matching field.
Modelled from the spec: decoding "dispatches to a per-type parser to
reconstruct a typed configuration" which is then stored on the channel
(§4.3, used at `checkly.go:699`). -/
def AlertChannel.setConfig (ac : AlertChannel) : ACConfig → AlertChannel
  | .email e => { ac with Email := some e }
  | .slack s => { ac with Slack := some s }
  | .webhook w => { ac with Webhook := some w }

/-- `GetConfig`: serialize the configuration selected by the channel's
`type` tag into its generic JSON form (`null` when the corresponding
field is unset or the type is unknown).
Modelled from the spec: "flattens a typed configuration into a generic
map for encoding" (§4.3, used at `checkly.go:626`). -/
def AlertChannel.getConfig (ac : AlertChannel) : JValue :=
  if ac.Type' = "EMAIL" then
    match ac.Email with
    | some e => .jobj [("address", .jstr e.address)]
    | none => .jnull
  else if ac.Type' = "SLACK" then
    match ac.Slack with
    | some s => .jobj [("url", .jstr s.webhookURL)]
    | none => .jnull
  else if ac.Type' = "WEBHOOK" then
    match ac.Webhook with
    | some w => .jobj [("name", .jstr w.name), ("url", .jstr w.url)]
    | none => .jnull
  else .jnull

/-- The type tags having a parser in the registry.
Modelled from the spec: the closed registry (§4.3, glossary). -/
def isRegistered (t : String) : Bool :=
  t = "EMAIL" || t = "SLACK" || t = "WEBHOOK"

/-- Look up a string field of a JSON object config. -/
def jStrField (j : JValue) (k : String) : Option String :=
  match j with
  | .jobj fields =>
    match List.lookup k fields with
    | some (.jstr s) => some s
    | _ => none
  | _ => none

/-- `AlertChannelConfigFromJSON`: the registry dispatch — parse the
`config` sub-structure according to the `type` tag.
Modelled from the spec: "this value selects which specialized config
parser to invoke — the set of supported types is a fixed, closed
registry"; "If `type` is not found in the registry, or the specific
parser rejects the config shape, decoding fails with a descriptive
error" (§4.3; called at `checkly.go:694`). -/
def AlertChannelConfigFromJSON (t : String) (j : JValue) : Except String ACConfig :=
  if t = "EMAIL" then
    match jStrField j "address" with
    | some a => .ok (.email ⟨a⟩)
    | none => .error ("invalid config for type " ++ t)
  else if t = "SLACK" then
    match jStrField j "url" with
    | some u => .ok (.slack ⟨u⟩)
    | none => .error ("invalid config for type " ++ t)
  else if t = "WEBHOOK" then
    match jStrField j "name", jStrField j "url" with
    | some n, some u => .ok (.webhook ⟨n, u⟩)
    | _, _ => .error ("invalid config for type " ++ t)
  else .error ("no parser found for type " ++ t)

/-- Error kinds an operation can surface (spec §7): the completed call
had a status other than the expected one, or the body failed to decode.
Transport-level failures happen before the embedded fragment starts. -/
inductive ApiError where
  | unexpectedStatus (status : Nat) (msg : String)
  | decodeError (msg : String)
deriving DecidableEq

/-- Outcome of an operation: a value, an error return, or a Go panic
(an unrecovered type-assertion failure, which is not an error return). -/
inductive Outcome (α : Type) where
  | ok (a : α)
  | err (e : ApiError)
  | panicked (msg : String)
deriving DecidableEq

/-- Whether an outcome is an unexpected-status error. -/
def Outcome.isUnexpectedStatus {α : Type} : Outcome α → Bool
  | .err (.unexpectedStatus _ _) => true
  | _ => false

/-- Reading an optional field as `string` (`checkly.go:660-662`): absent
keys leave the field unset; a present key is read with the unchecked
type assertion `v.(string)`, which panics (`none`) on any other shape. -/
def getStrField : Option JValue → Option (Option String)
  | none => some none
  | some (.jstr s) => some (some s)
  | some _ => none

/-- Reading an optional field as `bool` (`checkly.go:663-678`): absent
keys leave the pointer nil; a present key is read with the unchecked
type assertion `v.(bool)`, which panics (`none`) on any other shape. -/
def getBoolField : Option JValue → Option (Option Bool)
  | none => some none
  | some (.jbool b) => some (some b)
  | some _ => none

/-- Reading an optional numeric field (`checkly.go:652-659` for `id`,
`679-688` for `sslExpiryThreshold`): the source switches on the dynamic
type with `int`/`int64`/`float32`/`float64` cases, but Go's decoder
hands every JSON number to it as `float64`, so the live behaviour is:
number present, read its value (the `int64(...)`/`int(...)` conversion
is exact for integer-valued numbers up to `2^53`); any other shape
falls through the switch, leaving the zero value / nil pointer. -/
def getNumField : Option JValue → Option Int
  | some (.jnum v _) => some v
  | _ => none

/-- One `if ptr != nil { payload[k] = *ptr }` step of
`payloadFromAlertChannel` (`checkly.go:628-642`). -/
def optEntry {β : Type} (k : String) (f : β → JValue) : Option β → List (String × JValue)
  | some b => [(k, f b)]
  | none => []

/-- `payloadFromAlertChannel` (`checkly.go:622-644`): the generic wire
payload, always carrying `id`, `type` and `config`, and each of the five
optional fields only when set. -/
def payloadFromAlertChannel (ac : AlertChannel) : JValue :=
  .jobj ([("id", .jnum ac.ID false), ("type", .jstr ac.Type'),
          ("config", ac.getConfig)]
    ++ optEntry "sendRecovery" .jbool ac.SendRecovery
    ++ optEntry "sendDegraded" .jbool ac.SendDegraded
    ++ optEntry "sendFailure" .jbool ac.SendFailure
    ++ optEntry "sslExpiry" .jbool ac.SSLExpiry
    ++ optEntry "sslExpiryThreshold" (fun t => .jnum t false) ac.SSLExpiryThreshold)

/-- `alertChannelFromJSON` (`checkly.go:646-702`), applied to the
`JValue` that `json.Decode` produced from the response text (a non-object
value fails the decode into `map[string]interface{}`).  The `id` and
`sslExpiryThreshold` switches in the source have `int`/`int64` cases,
but Go's decoder hands every number to them as `float64`, so only the
`float64` case is live: the value is read (truncating `int64`/`int`
conversion, exact on integer-valued numbers) and any non-number shape
falls through the switch, leaving the zero value / nil pointer.  The
`type` and four boolean fields use unchecked type assertions and panic
on other shapes.  The registry is consulted only when a `config` key is
present. -/
def alertChannelFromJSON (j : JValue) : Outcome AlertChannel :=
  match j with
  | .jobj fields =>
    let id : Int := (getNumField (List.lookup "id" fields)).getD 0
    match getStrField (List.lookup "type" fields) with
    | none => .panicked "interface conversion: interface is not string"
    | some ty? =>
      let ty := ty?.getD ""
      match getBoolField (List.lookup "sendRecovery" fields) with
      | none => .panicked "interface conversion: interface is not bool"
      | some sr =>
        match getBoolField (List.lookup "sendFailure" fields) with
        | none => .panicked "interface conversion: interface is not bool"
        | some sf =>
          match getBoolField (List.lookup "sendDegraded" fields) with
          | none => .panicked "interface conversion: interface is not bool"
          | some sd =>
            match getBoolField (List.lookup "sslExpiry" fields) with
            | none => .panicked "interface conversion: interface is not bool"
            | some se =>
              let th : Option Int :=
                getNumField (List.lookup "sslExpiryThreshold" fields)
              let base : AlertChannel :=
                ⟨id, ty, sr, sf, sd, se, th, none, none, none⟩
              match List.lookup "config" fields with
              | none => .ok base
              | some cfg =>
                match AlertChannelConfigFromJSON ty cfg with
                | .error e => .err (.decodeError e)
                | .ok c => .ok (base.setConfig c)
  | _ => .err (.decodeError "decoding error for alert channel response")

/-- A completed HTTP round trip, as handed back by `apiCall`
(`checkly.go:713-748`): the literal status code and the full body text.
`parsed` abstracts what `json.Decode` produces from `raw`
(`none` when the body is not well-formed JSON). -/
structure HttpResponse where
  status : Nat
  raw : String
  parsed : Option JValue

/-- Escape one character the way Go's `%q` verb does for printable
ASCII (quotes and backslashes escaped, everything else verbatim); the
modelled bodies contain no control or non-ASCII characters. -/
def goEscapeChar (c : Char) : List Char :=
  if c = '"' then ['\\', '"']
  else if c = '\\' then ['\\', '\\']
  else [c]

/-- Go's `%q` formatting of a string (printable-ASCII fragment). -/
def goQuote (s : String) : String :=
  "\"" ++ String.mk (List.flatten (s.data.map goEscapeChar)) ++ "\""

/-- The error text `fmt.Errorf("unexpected response status %d: %q", status, res)`
produces (e.g. `checkly.go:68`). -/
def goErrMsg (status : Nat) (res : String) : String :=
  "unexpected response status " ++ toString status ++ ": " ++ goQuote res

/-- The variant text `fmt.Errorf("unexpected response status: %d, res: %q", ...)`
used by the snippet and variable creates (`checkly.go:359,453`). -/
def goErrMsgAlt (status : Nat) (res : String) : String :=
  "unexpected response status: " ++ toString status ++ ", res: " ++ goQuote res

/-- `withAutoAssignAlertsFlag` (`checkly.go:750-756`).  Go tests
`strings.Contains(url, "?")`; the needle is the single character `?`, so
the test is membership of `?` among the characters of `url`. -/
def withAutoAssignAlertsFlag (url : String) : String :=
  let flag := "autoAssignAlerts=false"
  if url.data.contains '?' then url ++ "&" ++ flag
  else url ++ "?" ++ flag

/-- The path `Create` dispatches to (`checkly.go:61`). -/
def createCheckPath : String := withAutoAssignAlertsFlag "checks"

/-- The path `Update` dispatches to (`checkly.go:90`). -/
def updateCheckPath (ID : String) : String :=
  withAutoAssignAlertsFlag ("checks/" ++ ID)

/-- The path `CreateGroup` dispatches to (`checkly.go:167`). -/
def createGroupPath : String := withAutoAssignAlertsFlag "check-groups"

/-- The path `UpdateGroup` dispatches to (`checkly.go:225`). -/
def updateGroupPath (ID : Int) : String :=
  withAutoAssignAlertsFlag ("check-groups/" ++ toString ID)

/-- `Create` (`checkly.go:50-75`) from the point the call completed:
only status 201 is accepted; otherwise the error carries the status and
the quoted body.  The field-level decoding of the body into a `Check`
lives in the type-definition file; any well-formed JSON body stands for
a decodable check here, which is all the claims inspect. -/
def Create (resp : HttpResponse) : Outcome JValue :=
  if resp.status ≠ 201 then
    .err (.unexpectedStatus resp.status (goErrMsg resp.status resp.raw))
  else
    match resp.parsed with
    | none => .err (.decodeError ("decoding error for data " ++ resp.raw))
    | some v => .ok v

/-- `CreateGroup` (`checkly.go:156-182`) from the completed call on. -/
def CreateGroup (resp : HttpResponse) : Outcome JValue :=
  if resp.status ≠ 201 then
    .err (.unexpectedStatus resp.status (goErrMsg resp.status resp.raw))
  else
    match resp.parsed with
    | none => .err (.decodeError ("decoding error for data " ++ resp.raw))
    | some v => .ok v

/-- `CreateSnippet` (`checkly.go:346-367`) from the completed call on. -/
def CreateSnippet (resp : HttpResponse) : Outcome JValue :=
  if resp.status ≠ 201 then
    .err (.unexpectedStatus resp.status (goErrMsgAlt resp.status resp.raw))
  else
    match resp.parsed with
    | none => .err (.decodeError ("decoding error for data " ++ resp.raw))
    | some v => .ok v

/-- `CreateEnvironmentVariable` (`checkly.go:440-461`) from the
completed call on. -/
def CreateEnvironmentVariable (resp : HttpResponse) : Outcome JValue :=
  if resp.status ≠ 201 then
    .err (.unexpectedStatus resp.status (goErrMsgAlt resp.status resp.raw))
  else
    match resp.parsed with
    | none => .err (.decodeError ("decoding error for data " ++ resp.raw))
    | some v => .ok v

/-- `CreateAlertChannel` (`checkly.go:539-556`) from the completed call
on; `data` is the marshalled outgoing payload quoted in the error text.
Statuses 200 and 201 are both accepted; the body is then handed to
`alertChannelFromJSON`. -/
def CreateAlertChannel (data : String) (resp : HttpResponse) : Outcome AlertChannel :=
  if resp.status ≠ 200 ∧ resp.status ≠ 201 then
    .err (.unexpectedStatus resp.status
      ("unexpected response status: " ++ toString resp.status ++ ", res: "
        ++ goQuote resp.raw ++ ", payload: " ++ data))
  else
    match resp.parsed with
    | none => .err (.decodeError ("decoding error for data " ++ resp.raw))
    | some j => alertChannelFromJSON j

/-- `Delete` (`checkly.go:109-126`) from the completed call on: status
204 yields a nil error; anything else yields the unexpected-status
error.  The body is never decoded. -/
def Delete (resp : HttpResponse) : Option ApiError :=
  if resp.status ≠ 204 then
    some (.unexpectedStatus resp.status (goErrMsg resp.status resp.raw))
  else none

/-- `DeleteGroup` (`checkly.go:244-261`) from the completed call on. -/
def DeleteGroup (resp : HttpResponse) : Option ApiError :=
  if resp.status ≠ 204 then
    some (.unexpectedStatus resp.status (goErrMsg resp.status resp.raw))
  else none

/-- `DeleteSnippet` (`checkly.go:423-435`) from the completed call on. -/
def DeleteSnippet (resp : HttpResponse) : Option ApiError :=
  if resp.status ≠ 204 then
    some (.unexpectedStatus resp.status (goErrMsg resp.status resp.raw))
  else none

/-- `DeleteEnvironmentVariable` (`checkly.go:523-535`) from the
completed call on. -/
def DeleteEnvironmentVariable (resp : HttpResponse) : Option ApiError :=
  if resp.status ≠ 204 then
    some (.unexpectedStatus resp.status (goErrMsg resp.status resp.raw))
  else none

/-- `DeleteAlertChannel` (`checkly.go:603-620`) from the completed call
on. -/
def DeleteAlertChannel (resp : HttpResponse) : Option ApiError :=
  if resp.status ≠ 204 then
    some (.unexpectedStatus resp.status (goErrMsg resp.status resp.raw))
  else none

/-- The `CheckResultsFilter` parameter object; the field set and types
follow the accesses in `GetCheckResults` (`checkly.go:297-319`) and the
spec (§3): all fields optional, zero/empty meaning "not applied". -/
structure CheckResultsFilter where
  Page : Int := 0
  Limit : Int := 0
  From : Int := 0
  To : Int := 0
  CheckType : String := ""
  HasFailures : Bool := false
  Location : String := ""

/-- `TypeBrowser` check-type enum value.
Modelled from the spec: the check-type enum is "a fixed set of values"
(§3); the constant lives in the type-definition file. -/
def TypeBrowser : String := "BROWSER"

/-- `TypeAPI` check-type enum value.
Modelled from the spec: see `TypeBrowser`. -/
def TypeAPI : String := "API"

/-- The key/value pairs `GetCheckResults` adds to `url.Values`
(`checkly.go:298-319`), in source order. -/
def checkResultsQuery (f : CheckResultsFilter) : List (String × String) :=
  (if f.Page > 0 then [("page", toString f.Page)] else [])
    ++ (if f.Limit > 0 then [("limit", toString f.Limit)] else [])
    ++ (if f.From > 0 then [("from", toString f.From)] else [])
    ++ (if f.To > 0 then [("to", toString f.To)] else [])
    ++ (if f.CheckType = TypeBrowser ∨ f.CheckType = TypeAPI then
          [("checkType", f.CheckType)] else [])
    ++ (if f.HasFailures then [("hasFailures", "1")] else [])
    ++ (if f.Location.length > 0 then [("location", f.Location)] else [])

/-- Whether a byte is left unescaped by Go's `url.QueryEscape`
(RFC 3986 unreserved characters). -/
def isUnreserved (c : Char) : Bool :=
  c.isAlphanum || c = '-' || c = '_' || c = '.' || c = '~'

/-- Upper-case hex digit of a value below 16. -/
def hexDigit (n : Nat) : Char :=
  if n < 10 then Char.ofNat (48 + n) else Char.ofNat (55 + n)

/-- Go's `url.QueryEscape` on one ASCII character: unreserved bytes kept,
space becomes `+`, anything else percent-encoded. -/
def queryEscapeChar (c : Char) : List Char :=
  if isUnreserved c then [c]
  else if c = ' ' then ['+']
  else ['%', hexDigit (c.toNat / 16 % 16), hexDigit (c.toNat % 16)]

/-- Go's `url.QueryEscape` (ASCII fragment; the modelled values are
ASCII). -/
def queryEscape (s : String) : String :=
  String.mk (List.flatten (s.data.map queryEscapeChar))

/-- Insert a pair into a key-sorted list (the sort underlying
`url.Values.Encode`; written as structurally recursive insertion so that
it evaluates by reduction). -/
def insertByKey (kv : String × String) : List (String × String) → List (String × String)
  | [] => [kv]
  | x :: xs => if kv.1 ≤ x.1 then kv :: x :: xs else x :: insertByKey kv xs

/-- Sort key/value pairs by key. -/
def sortByKey : List (String × String) → List (String × String)
  | [] => []
  | x :: xs => insertByKey x (sortByKey xs)

/-- `url.Values.Encode`: keys sorted, each pair escaped and joined with
`=`, pairs joined with `&`. -/
def urlValuesEncode (vs : List (String × String)) : String :=
  String.intercalate "&"
    ((sortByKey vs).map (fun kv => queryEscape kv.1 ++ "=" ++ queryEscape kv.2))

/-- The request path `GetCheckResults` builds (`checkly.go:296-321`):
`check-results/{id}`, and when a filter object is supplied, `?` plus the
encoded query values (the `?` is appended even when the encoding is
empty). -/
def GetCheckResultsURI (checkID : String) (filters : Option CheckResultsFilter) : String :=
  let uri := "check-results/" ++ checkID
  match filters with
  | none => uri
  | some f => uri ++ "?" ++ urlValuesEncode (checkResultsQuery f)

/-- A channel whose `type` tag is in the registry and whose typed-config
fields agree with the tag: exactly the field selected by the tag is set.
(The Go SDK keeps one pointer field per config type; a channel as
returned by the API satisfies this.) -/
def AlertChannel.wfConfig (ac : AlertChannel) : Prop :=
  (ac.Type' = "EMAIL" ∧ ac.Email.isSome ∧ ac.Slack = none ∧ ac.Webhook = none) ∨
  (ac.Type' = "SLACK" ∧ ac.Slack.isSome ∧ ac.Email = none ∧ ac.Webhook = none) ∨
  (ac.Type' = "WEBHOOK" ∧ ac.Webhook.isSome ∧ ac.Email = none ∧ ac.Slack = none)

end Checkly

open Checkly

theorem lookup_append {β : Type} (k : String) (l₁ l₂ : List (String × β)) :
    List.lookup k (l₁ ++ l₂) = (List.lookup k l₁).or (List.lookup k l₂) := by
  induction l₁ with
  | nil => simp [List.lookup]
  | cons x xs ih =>
    obtain ⟨k', v⟩ := x
    by_cases h : (k == k')
    · simp [List.lookup, h]
    · simp [List.lookup, h, ih]

theorem lookup_optEntry_self {β : Type} (k : String) (f : β → JValue) (o : Option β) :
    List.lookup k (optEntry k f o) = o.map f := by
  cases o <;> simp [optEntry, List.lookup]

theorem lookup_optEntry_ne {β : Type} (k k' : String) (f : β → JValue) (o : Option β)
    (h : (k == k') = false) :
    List.lookup k (optEntry k' f o) = none := by
  cases o <;> simp [optEntry, List.lookup, h]

theorem getBoolField_map (o : Option Bool) :
    getBoolField (o.map JValue.jbool) = some o := by
  cases o <;> rfl

theorem getNumField_map (o : Option Int) :
    getNumField (o.map fun t => JValue.jnum t false) = o := by
  cases o <;> rfl

theorem getNumField_some_num (v : Int) (fl : Bool) :
    getNumField (some (.jnum v fl)) = some v := rfl

theorem configFromJSON_unregistered (t : String) (j : JValue)
    (h : isRegistered t = false) :
    AlertChannelConfigFromJSON t j = .error ("no parser found for type " ++ t) := by
  simp only [isRegistered, Bool.or_eq_false_iff, decide_eq_false_iff_not] at h
  unfold AlertChannelConfigFromJSON
  rw [if_neg h.1.1, if_neg h.1.2, if_neg h.2]

/-- C9: the `type` field and the four optional boolean fields are read
with unchecked type assertions; a well-formed JSON object in which any
of them is present with a non-matching shape makes the decoder panic
instead of returning an error. -/
theorem alertChannelFromJSON_panics_on_bad_types :
    alertChannelFromJSON (.jobj [("type", .jnum 42 false)]) =
      .panicked "interface conversion: interface is not string" ∧
    alertChannelFromJSON (.jobj [("type", .jstr "EMAIL"), ("sendRecovery", .jstr "yes")]) =
      .panicked "interface conversion: interface is not bool" ∧
    alertChannelFromJSON (.jobj [("type", .jstr "EMAIL"), ("sendFailure", .jnum 1 false)]) =
      .panicked "interface conversion: interface is not bool" ∧
    alertChannelFromJSON (.jobj [("type", .jstr "EMAIL"), ("sendDegraded", .jnull)]) =
      .panicked "interface conversion: interface is not bool" ∧
    alertChannelFromJSON (.jobj [("type", .jstr "EMAIL"), ("sslExpiry", .jobj [])]) =
      .panicked "interface conversion: interface is not bool" :=
  ⟨rfl, rfl, rfl, rfl, rfl⟩

/-- C2 fails as stated: a payload whose `type` has no parser but which
carries no `config` key decodes without error, to a channel none of
whose config fields is set — the registry is never consulted. -/
theorem unsupported_type_without_config_decodes_ok :
    isRegistered "BOGUS" = false ∧
    alertChannelFromJSON (.jobj [("type", .jstr "BOGUS")]) =
      .ok ⟨0, "BOGUS", none, none, none, none, none, none, none, none⟩ :=
  ⟨rfl, rfl⟩

/-- C2 (amended): for every decoded payload that carries a `config` key,
whose `type` field holds a string with no parser in the registry, and
whose four optional boolean fields are well shaped (so the unchecked
assertions do not panic first), decoding returns the registry error and
no channel. -/
theorem unsupported_type_with_config_fails (fields : List (String × JValue))
    (t : String) (cfg : JValue)
    (hty : List.lookup "type" fields = some (.jstr t))
    (hreg : isRegistered t = false)
    (hsr : (getBoolField (List.lookup "sendRecovery" fields)).isSome = true)
    (hsf : (getBoolField (List.lookup "sendFailure" fields)).isSome = true)
    (hsd : (getBoolField (List.lookup "sendDegraded" fields)).isSome = true)
    (hse : (getBoolField (List.lookup "sslExpiry" fields)).isSome = true)
    (hcfg : List.lookup "config" fields = some cfg) :
    alertChannelFromJSON (.jobj fields) =
      .err (.decodeError ("no parser found for type " ++ t)) := by
  obtain ⟨sr, hsr⟩ := Option.isSome_iff_exists.mp hsr
  obtain ⟨sf, hsf⟩ := Option.isSome_iff_exists.mp hsf
  obtain ⟨sd, hsd⟩ := Option.isSome_iff_exists.mp hsd
  obtain ⟨se, hse⟩ := Option.isSome_iff_exists.mp hse
  simp only [alertChannelFromJSON, hty, hcfg, hsr, hsf, hsd, hse, getStrField,
    Option.getD, configFromJSON_unregistered t cfg hreg]

theorem unsupported_type_with_config_fails_witness :
    alertChannelFromJSON
        (.jobj [("type", .jstr "BOGUS"), ("config", .jobj [])]) =
      .err (.decodeError ("no parser found for type " ++ "BOGUS")) :=
  unsupported_type_with_config_fails
    [("type", .jstr "BOGUS"), ("config", .jobj [])] "BOGUS" (.jobj [])
    rfl rfl rfl rfl rfl rfl rfl

/-- C10: when the decoded payload has no `config` key, the registry is
never consulted: even for an unregistered `type`, decoding succeeds and
returns a channel none of whose config fields is set. -/
theorem missing_config_skips_registry_check (fields : List (String × JValue))
    (t : String)
    (hty : List.lookup "type" fields = some (.jstr t))
    (hreg : isRegistered t = false)
    (hsr : (getBoolField (List.lookup "sendRecovery" fields)).isSome = true)
    (hsf : (getBoolField (List.lookup "sendFailure" fields)).isSome = true)
    (hsd : (getBoolField (List.lookup "sendDegraded" fields)).isSome = true)
    (hse : (getBoolField (List.lookup "sslExpiry" fields)).isSome = true)
    (hcfg : List.lookup "config" fields = none) :
    ∃ ac : AlertChannel,
      alertChannelFromJSON (.jobj fields) = .ok ac ∧
      ac.Type' = t ∧ ac.Email = none ∧ ac.Slack = none ∧ ac.Webhook = none := by
  obtain ⟨sr, hsr⟩ := Option.isSome_iff_exists.mp hsr
  obtain ⟨sf, hsf⟩ := Option.isSome_iff_exists.mp hsf
  obtain ⟨sd, hsd⟩ := Option.isSome_iff_exists.mp hsd
  obtain ⟨se, hse⟩ := Option.isSome_iff_exists.mp hse
  refine ⟨⟨(getNumField (List.lookup "id" fields)).getD 0, t, sr, sf, sd, se,
           getNumField (List.lookup "sslExpiryThreshold" fields),
           none, none, none⟩, ?_, rfl, rfl, rfl, rfl⟩
  simp only [alertChannelFromJSON, hty, hcfg, hsr, hsf, hsd, hse, getStrField,
    Option.getD]

theorem missing_config_skips_registry_check_witness :
    ∃ ac : AlertChannel,
      alertChannelFromJSON (.jobj [("type", .jstr "PAGERDUTY")]) = .ok ac ∧
      ac.Type' = "PAGERDUTY" ∧ ac.Email = none ∧ ac.Slack = none ∧ ac.Webhook = none :=
  missing_config_skips_registry_check [("type", .jstr "PAGERDUTY")] "PAGERDUTY"
    rfl rfl rfl rfl rfl rfl rfl

/-- C3: a numeric `id` or `sslExpiryThreshold` field decodes to the same
normalized integer whether the JSON text used the integer or the
floating-point representation of the value (within the range where
`float64` is exact, which justifies the exact-integer model). -/
theorem numeric_representation_normalization (v : Int) (h : v.natAbs ≤ 2 ^ 53) :
    (alertChannelFromJSON (.jobj [("id", .jnum v false)]) =
       alertChannelFromJSON (.jobj [("id", .jnum v true)]) ∧
     alertChannelFromJSON (.jobj [("id", .jnum v false)]) =
       .ok ⟨v, "", none, none, none, none, none, none, none, none⟩) ∧
    (alertChannelFromJSON (.jobj [("sslExpiryThreshold", .jnum v false)]) =
       alertChannelFromJSON (.jobj [("sslExpiryThreshold", .jnum v true)]) ∧
     alertChannelFromJSON (.jobj [("sslExpiryThreshold", .jnum v false)]) =
       .ok ⟨0, "", none, none, none, none, some v, none, none, none⟩) :=
  ⟨⟨rfl, rfl⟩, ⟨rfl, rfl⟩⟩

theorem numeric_representation_normalization_witness :
    alertChannelFromJSON (.jobj [("id", .jnum 42 false)]) =
       alertChannelFromJSON (.jobj [("id", .jnum 42 true)]) :=
  ((numeric_representation_normalization 42 (by decide)).1).1

/-- C1: encoding a well-formed channel with a registered type and then
decoding the result reproduces the typed configuration and each of the
five optional fields exactly; unset optional fields stay unset.  The
numeric-range hypothesis records where the exact-integer model of Go's
`float64` intermediate is faithful. -/
theorem alertChannel_encode_decode_roundtrip (ac : AlertChannel)
    (hwf : ac.wfConfig)
    (hth : ∀ t : Int, ac.SSLExpiryThreshold = some t → t.natAbs ≤ 2 ^ 53) :
    ∃ ac' : AlertChannel,
      alertChannelFromJSON (payloadFromAlertChannel ac) = .ok ac' ∧
      ac'.Type' = ac.Type' ∧
      ac'.Email = ac.Email ∧ ac'.Slack = ac.Slack ∧ ac'.Webhook = ac.Webhook ∧
      ac'.SendRecovery = ac.SendRecovery ∧ ac'.SendFailure = ac.SendFailure ∧
      ac'.SendDegraded = ac.SendDegraded ∧ ac'.SSLExpiry = ac.SSLExpiry ∧
      ac'.SSLExpiryThreshold = ac.SSLExpiryThreshold := by
  obtain ⟨id, ty, sr, sf, sd, se, th, em, sl, wh⟩ := ac
  simp only [AlertChannel.wfConfig] at hwf
  rcases hwf with ⟨h1, h2, h3, h4⟩ | ⟨h1, h2, h3, h4⟩ | ⟨h1, h2, h3, h4⟩
  · subst h1; subst h3; subst h4
    obtain ⟨⟨ea⟩, rfl⟩ := Option.isSome_iff_exists.mp h2
    refine ⟨⟨id, "EMAIL", sr, sf, sd, se, th, some ⟨ea⟩, none, none⟩,
      ?_, rfl, rfl, rfl, rfl, rfl, rfl, rfl, rfl, rfl⟩
    simp [payloadFromAlertChannel, AlertChannel.getConfig, alertChannelFromJSON,
      lookup_append, lookup_optEntry_self, lookup_optEntry_ne, List.lookup,
      getStrField, getBoolField_map, getNumField_map, getNumField_some_num,
      AlertChannelConfigFromJSON, jStrField, AlertChannel.setConfig]
  · subst h1; subst h3; subst h4
    obtain ⟨⟨su⟩, rfl⟩ := Option.isSome_iff_exists.mp h2
    refine ⟨⟨id, "SLACK", sr, sf, sd, se, th, none, some ⟨su⟩, none⟩,
      ?_, rfl, rfl, rfl, rfl, rfl, rfl, rfl, rfl, rfl⟩
    simp [payloadFromAlertChannel, AlertChannel.getConfig, alertChannelFromJSON,
      lookup_append, lookup_optEntry_self, lookup_optEntry_ne, List.lookup,
      getStrField, getBoolField_map, getNumField_map, getNumField_some_num,
      AlertChannelConfigFromJSON, jStrField, AlertChannel.setConfig]
  · subst h1; subst h3; subst h4
    obtain ⟨⟨wn, wu⟩, rfl⟩ := Option.isSome_iff_exists.mp h2
    refine ⟨⟨id, "WEBHOOK", sr, sf, sd, se, th, none, none, some ⟨wn, wu⟩⟩,
      ?_, rfl, rfl, rfl, rfl, rfl, rfl, rfl, rfl, rfl⟩
    simp [payloadFromAlertChannel, AlertChannel.getConfig, alertChannelFromJSON,
      lookup_append, lookup_optEntry_self, lookup_optEntry_ne, List.lookup,
      getStrField, getBoolField_map, getNumField_map, getNumField_some_num,
      AlertChannelConfigFromJSON, jStrField, AlertChannel.setConfig]

theorem alertChannel_encode_decode_roundtrip_witness :
    ∃ ac' : AlertChannel,
      alertChannelFromJSON (payloadFromAlertChannel
        ⟨42, "EMAIL", some true, none, none, some false, some 30,
         some ⟨"dev@example.com"⟩, none, none⟩) = .ok ac' ∧
      ac'.Type' = "EMAIL" ∧
      ac'.Email = some ⟨"dev@example.com"⟩ ∧ ac'.Slack = none ∧ ac'.Webhook = none ∧
      ac'.SendRecovery = some true ∧ ac'.SendFailure = none ∧
      ac'.SendDegraded = none ∧ ac'.SSLExpiry = some false ∧
      ac'.SSLExpiryThreshold = some 30 :=
  alertChannel_encode_decode_roundtrip
    ⟨42, "EMAIL", some true, none, none, some false, some 30,
     some ⟨"dev@example.com"⟩, none, none⟩
    (Or.inl ⟨rfl, rfl, rfl, rfl⟩)
    (by intro t ht; cases Option.some.inj ht; decide)

theorem acfj_not_unexpectedStatus (j : JValue) :
    (alertChannelFromJSON j).isUnexpectedStatus = false := by
  unfold alertChannelFromJSON
  cases j <;> try rfl
  dsimp only
  repeat' split
  all_goals rfl

/-- C4: after a completed call, `CreateAlertChannel` is free of an
unexpected-status error exactly when the status is 200 or 201, while the
create operations of every other resource accept only 201 (and so error
on 200). -/
theorem create_success_status_acceptance (data : String) (resp : HttpResponse) :
    ((CreateAlertChannel data resp).isUnexpectedStatus = false ↔
      (resp.status = 200 ∨ resp.status = 201)) ∧
    ((Create resp).isUnexpectedStatus = false ↔ resp.status = 201) ∧
    ((CreateGroup resp).isUnexpectedStatus = false ↔ resp.status = 201) ∧
    ((CreateSnippet resp).isUnexpectedStatus = false ↔ resp.status = 201) ∧
    ((CreateEnvironmentVariable resp).isUnexpectedStatus = false ↔
      resp.status = 201) := by
  obtain ⟨st, raw, parsed⟩ := resp
  refine ⟨?_, ?_, ?_, ?_, ?_⟩
  · by_cases h200 : st = 200
    · cases parsed with
      | none => simp [CreateAlertChannel, h200, Outcome.isUnexpectedStatus]
      | some j => simp [CreateAlertChannel, h200, acfj_not_unexpectedStatus]
    · by_cases h201 : st = 201
      · cases parsed with
        | none => simp [CreateAlertChannel, h200, h201, Outcome.isUnexpectedStatus]
        | some j => simp [CreateAlertChannel, h200, h201, acfj_not_unexpectedStatus]
      · simp [CreateAlertChannel, h200, h201, Outcome.isUnexpectedStatus]
  · by_cases h : st = 201
    · cases parsed <;> simp [Create, h, Outcome.isUnexpectedStatus]
    · simp [Create, h, Outcome.isUnexpectedStatus]
  · by_cases h : st = 201
    · cases parsed <;> simp [CreateGroup, h, Outcome.isUnexpectedStatus]
    · simp [CreateGroup, h, Outcome.isUnexpectedStatus]
  · by_cases h : st = 201
    · cases parsed <;> simp [CreateSnippet, h, Outcome.isUnexpectedStatus]
    · simp [CreateSnippet, h, Outcome.isUnexpectedStatus]
  · by_cases h : st = 201
    · cases parsed <;>
        simp [CreateEnvironmentVariable, h, Outcome.isUnexpectedStatus]
    · simp [CreateEnvironmentVariable, h, Outcome.isUnexpectedStatus]

theorem escapeChars_of_clean (l : List Char)
    (h : ∀ c ∈ l, c ≠ '"' ∧ c ≠ '\\') :
    List.flatten (l.map goEscapeChar) = l := by
  induction l with
  | nil => rfl
  | cons c cs ih =>
    have hc := h c (List.mem_cons_self c cs)
    simp only [List.map_cons, List.flatten_cons, goEscapeChar, if_neg hc.1,
      if_neg hc.2, List.singleton_append]
    rw [ih fun x hx => h x (List.mem_cons_of_mem c hx)]

/-- C7: a completed check-create call whose status is not 201 returns no
value and the unexpected-status error, whose message contains the status
code and (for bodies free of characters that `%q` escapes) the raw
response body. -/
theorem create_unexpected_status_error (resp : HttpResponse)
    (h : resp.status ≠ 201)
    (hraw : ∀ c ∈ resp.raw.data, c ≠ '"' ∧ c ≠ '\\') :
    Create resp =
      .err (.unexpectedStatus resp.status (goErrMsg resp.status resp.raw)) ∧
    List.IsInfix (toString resp.status).data (goErrMsg resp.status resp.raw).data ∧
    List.IsInfix resp.raw.data (goErrMsg resp.status resp.raw).data := by
  refine ⟨?_, ?_, ?_⟩
  · unfold Create
    rw [if_pos h]
  · exact ⟨"unexpected response status ".data, (": " ++ goQuote resp.raw).data, by
      simp [goErrMsg, String.data_append, List.append_assoc]⟩
  · refine ⟨("unexpected response status " ++ toString resp.status ++ ": ").data
        ++ "\"".data, "\"".data, ?_⟩
    simp [goErrMsg, goQuote, String.data_append,
      escapeChars_of_clean resp.raw.data hraw, List.append_assoc]

theorem create_unexpected_status_error_witness :
    Create ⟨200, "oops", none⟩ =
      .err (.unexpectedStatus 200 (goErrMsg 200 "oops")) ∧
    List.IsInfix (toString 200).data (goErrMsg 200 "oops").data ∧
    List.IsInfix "oops".data (goErrMsg 200 "oops").data :=
  create_unexpected_status_error ⟨200, "oops", none⟩ (by decide) (by decide)

/-- C8: every delete operation succeeds (nil error) on a completed call
with status 204 and an empty body, and its outcome never depends on the
body's JSON decoding, which is not attempted. -/
theorem delete_status_only (status : Nat) (raw : String) (p p' : Option JValue) :
    (Delete ⟨204, "", p⟩ = none ∧ DeleteGroup ⟨204, "", p⟩ = none ∧
     DeleteSnippet ⟨204, "", p⟩ = none ∧
     DeleteEnvironmentVariable ⟨204, "", p⟩ = none ∧
     DeleteAlertChannel ⟨204, "", p⟩ = none) ∧
    (Delete ⟨status, raw, p⟩ = Delete ⟨status, raw, p'⟩ ∧
     DeleteGroup ⟨status, raw, p⟩ = DeleteGroup ⟨status, raw, p'⟩ ∧
     DeleteSnippet ⟨status, raw, p⟩ = DeleteSnippet ⟨status, raw, p'⟩ ∧
     DeleteEnvironmentVariable ⟨status, raw, p⟩ =
       DeleteEnvironmentVariable ⟨status, raw, p'⟩ ∧
     DeleteAlertChannel ⟨status, raw, p⟩ = DeleteAlertChannel ⟨status, raw, p'⟩) :=
  ⟨⟨rfl, rfl, rfl, rfl, rfl⟩, ⟨rfl, rfl, rfl, rfl, rfl⟩⟩

/-- C6: `withAutoAssignAlertsFlag` appends the fixed flag after `?` when
the path has no query string yet, after `&` when it does; the check and
check-group create/update paths are built through it. -/
theorem autoAssignAlerts_flag_injection :
    (∀ url : String,
      (url.data.contains '?' = false →
        withAutoAssignAlertsFlag url = url ++ "?autoAssignAlerts=false") ∧
      (url.data.contains '?' = true →
        withAutoAssignAlertsFlag url = url ++ "&autoAssignAlerts=false")) ∧
    createCheckPath = withAutoAssignAlertsFlag "checks" ∧
    (∀ ID : String, updateCheckPath ID = withAutoAssignAlertsFlag ("checks/" ++ ID)) ∧
    createGroupPath = withAutoAssignAlertsFlag "check-groups" ∧
    (∀ ID : Int,
      updateGroupPath ID = withAutoAssignAlertsFlag ("check-groups/" ++ toString ID)) := by
  refine ⟨fun url => ⟨fun h => ?_, fun h => ?_⟩, rfl, fun _ => rfl, rfl, fun _ => rfl⟩
  · simp only [withAutoAssignAlertsFlag, h, Bool.false_eq_true, if_false]
    rw [String.append_assoc]; rfl
  · simp only [withAutoAssignAlertsFlag, h, if_true]
    rw [String.append_assoc]; rfl

theorem autoAssignAlerts_flag_injection_witness :
    withAutoAssignAlertsFlag "checks" = "checks" ++ "?autoAssignAlerts=false" ∧
    withAutoAssignAlertsFlag "checks?a=1" = "checks?a=1" ++ "&autoAssignAlerts=false" :=
  ⟨(autoAssignAlerts_flag_injection.1 "checks").1 (by decide),
   (autoAssignAlerts_flag_injection.1 "checks?a=1").2 (by decide)⟩

/-- C5: the all-default filter contributes no query parameter at all and
encodes to the empty query string; the filter with only `HasFailures`
set contributes exactly the single parameter `hasFailures=1`. -/
theorem checkResultsFilter_query_strings :
    checkResultsQuery {} = [] ∧
    urlValuesEncode (checkResultsQuery {}) = "" ∧
    checkResultsQuery { HasFailures := true } = [("hasFailures", "1")] ∧
    urlValuesEncode (checkResultsQuery { HasFailures := true }) = "hasFailures=1" ∧
    GetCheckResultsURI "42" (some {}) = "check-results/42?" := by
  refine ⟨by decide, by decide, by decide, by decide, by decide⟩
